import Mathlib

/-!
Shallow embedding of the bot lifecycle supervisor in `src/discord.rs` of the
sniffer repository.  The supervisor state is the `DiscordBot` struct; each
operation is embedded as a function from the state to a new state together
with the list of observable events it emits, in program order.  Fallible
message delivery is parametrised by a `delivery` oracle telling, per channel
and text, whether the underlying send succeeds; a failed send is followed by
a `panicked` event, matching the `.expect(..)` calls in the source.
-/

namespace Sniffer

/-- Modelled from the spec: the Cancellation Signal used by the supervisor is
`tokio_util::sync::CancellationToken`, an external collaborator not defined in
this repository; its contract (one-shot, idempotent trigger, waiters released
immediately once triggered, never resets) is taken from the spec, section 4.1. -/
structure CancellationToken where
  cancelled : Bool
deriving DecidableEq, Repr

def CancellationToken.new : CancellationToken := { cancelled := false }

def CancellationToken.cancel (_t : CancellationToken) : CancellationToken :=
  { cancelled := true }

/-- Modelled from the spec: `wait()` suspends until triggered and returns
immediately when the token is already triggered; this function tells whether a
waiter registering on token `t` is released at once. -/
def CancellationToken.wait_returns_immediately (t : CancellationToken) : Bool :=
  t.cancelled

/-- Modelled from the spec: the operations a holder of the token may perform
after it has been created. -/
inductive TokenOp
  | cancel
  | clone
  | wait
deriving DecidableEq, Repr

def TokenOp.apply : TokenOp → CancellationToken → CancellationToken
  | TokenOp.cancel, t => t.cancel
  | TokenOp.clone, t => t
  | TokenOp.wait, t => t

def applyTokenOps (ops : List TokenOp) (t : CancellationToken) : CancellationToken :=
  ops.foldl (fun s op => op.apply s) t

/-- Observable events of the supervisor operations in `src/discord.rs`:
lock scope of the audio player mutex, the call into the audio player
shutdown, sleeps, cancellation, acquiring the futures_locks mutex that wraps
the stored join handle (`handleLockAcquired`, whose guard the code drops at
once), awaiting a join handle itself to completion (`awaitedHandle`, an event
no embedded operation ever emits, used to state its absence), spawning a
task, a `.say(..)` delivery attempt on a channel, a panic raised by
`.expect(..)`, and the log lines. -/
inductive Event
  | audioLockAcquired
  | audioShutdownCall
  | audioLockReleased
  | sleep (ms : Nat)
  | cancelTriggered
  | handleLockAcquired (id : Nat)
  | awaitedHandle (id : Nat)
  | spawned (id : Nat)
  | say (channel : Nat) (text : String)
  | panicked (msg : String)
  | logInfo (msg : String)
  | logWarn (msg : String)
  | logError (msg : String)
deriving DecidableEq, Repr

/-- `SnifferPost` from `src/reddit.rs` (not among the provided sources): the
supervisor only consumes its rendered text and its optional url. -/
structure SnifferPost where
  content : String
  url : Option String
deriving DecidableEq, Repr

/-- Modelled from the spec: `SnifferPost::discord_string` is defined in
`src/reddit.rs`, which is not among the provided sources; per the spec,
`post(content, url?)` sends the content itself to the primary channel, so the
rendering is the content of the post. -/
def SnifferPost.discord_string (m : SnifferPost) : String := m.content

/-- The text sent to the archive channel: the rendered text with the url
appended as `\n<url>` when present (lines 235-240 of `src/discord.rs`),
otherwise the rendered text unchanged. -/
def SnifferPost.archive_string (m : SnifferPost) : String :=
  match m.url with
  | some u => m.discord_string ++ "\n<" ++ u ++ ">"
  | none => m.discord_string

/-- The supervisor state (`struct DiscordBot`, lines 92-103).  The stored join
handle is abstracted to a task identifier; `next_task_id` is the identifier the
next spawn will use (spawned tasks get fresh, increasing identifiers).  The
`audio_shutdown_result` field records what the external audio player shutdown
call returns when invoked (it is an external collaborator whose `shutdown`
returns a `Result`). -/
structure DiscordBot where
  shard_handle : Option Nat
  shard_cancel_token : CancellationToken
  next_task_id : Nat
  chat_channel : Nat
  test_channel : Nat
  archive_channel : Nat
  audio_shutdown_result : Except String Unit

/-- `DiscordBot::start_shards` (lines 156-174): spawns the shard run task and
stores its handle in `self.shard_handle`, unconditionally overwriting any
handle already stored, then logs; nothing is awaited. -/
def DiscordBot.start_shards (b : DiscordBot) (_num_shards : Nat) :
    DiscordBot × List Event :=
  ({ b with shard_handle := some b.next_task_id,
            next_task_id := b.next_task_id + 1 },
   [Event.spawned b.next_task_id, Event.logWarn "Started shards"])

/-- `DiscordBot::stop_audio` (lines 193-207): locks the audio player, invokes
its `shutdown()`, logs an error result (and otherwise nothing), then sleeps
500 ms.  The Rust lock guard `player` is bound for the whole function body, so
it is dropped when the function returns, which is after the sleep. -/
def DiscordBot.stop_audio (b : DiscordBot) : List Event :=
  [Event.audioLockAcquired, Event.audioShutdownCall] ++
  (match b.audio_shutdown_result with
   | Except.error x => [Event.logError ("Error shutting down player: " ++ x)]
   | Except.ok _ => []) ++
  [Event.sleep 500, Event.audioLockReleased]

/-- `DiscordBot::stop_shards` (lines 209-223): cancels the token first; then,
if a handle is stored, runs `let handle_lock = x.lock(); handle_lock.await`,
which awaits only the futures_locks mutex-acquisition future for the stored
`JoinHandle` and drops the resulting guard at the end of the statement — the
`JoinHandle` inside is never polled — and logs; otherwise it logs that there
is no shard handle. -/
def DiscordBot.stop_shards (b : DiscordBot) : DiscordBot × List Event :=
  let b1 : DiscordBot := { b with shard_cancel_token := b.shard_cancel_token.cancel }
  match b.shard_handle with
  | some id =>
      (b1, [Event.cancelTriggered, Event.handleLockAcquired id,
            Event.logWarn "Successfully waited on future"])
  | none =>
      (b1, [Event.cancelTriggered, Event.logError "We don\x27t have a shard handle"])

/-- `DiscordBot::shutdown` (lines 187-190): consumes the supervisor, runs
`stop_audio` to completion, then `stop_shards`. -/
def DiscordBot.shutdown (b : DiscordBot) : DiscordBot × List Event :=
  ((DiscordBot.stop_shards b).1,
   DiscordBot.stop_audio b ++ (DiscordBot.stop_shards b).2)

/-- `DiscordBot::post_message` (lines 225-242): logs, sends the rendered text
to the primary chat channel (panicking on failure via `.expect`), appends the
url when present and sends the result to the archive channel (again panicking
on failure).  The log line renders the post through its `Display` impl in
`src/reddit.rs` (not provided); it is modelled with the same rendering as
`discord_string`. -/
def DiscordBot.post_message (delivery : Nat → String → Bool) (b : DiscordBot)
    (message : SnifferPost) : List Event :=
  let message_text := message.discord_string
  let pre := [Event.logInfo ("Trying to send message: " ++ message_text)]
  if delivery b.chat_channel message_text then
    let archived := message.archive_string
    if delivery b.archive_channel archived then
      pre ++ [Event.say b.chat_channel message_text,
              Event.say b.archive_channel archived]
    else
      pre ++ [Event.say b.chat_channel message_text,
              Event.say b.archive_channel archived,
              Event.panicked "Error sending message to archive"]
  else
    pre ++ [Event.say b.chat_channel message_text,
            Event.panicked "Error sending message to main channel"]

/-- `DiscordBot::post_debug_string` (lines 244-249): logs, then sends the text
to the test channel, panicking on failure via `.expect`. -/
def DiscordBot.post_debug_string (delivery : Nat → String → Bool)
    (b : DiscordBot) (message : String) : List Event :=
  if delivery b.test_channel message then
    [Event.logWarn "Trying to send debug message",
     Event.say b.test_channel message]
  else
    [Event.logWarn "Trying to send debug message",
     Event.say b.test_channel message,
     Event.panicked "Error sending test message"]

/-! Concrete supervisor states used by witnesses and counterexamples. -/

def bot_c1 : DiscordBot :=
  ⟨some 7, CancellationToken.new, 8, 100, 300, 200, Except.ok ()⟩

def bot_c3 : DiscordBot :=
  ⟨none, CancellationToken.new, 0, 100, 300, 200, Except.ok ()⟩

def bot_c4 : DiscordBot :=
  ⟨none, CancellationToken.new, 0, 100, 300, 200, Except.ok ()⟩

def bot_c5 : DiscordBot :=
  ⟨some 0, CancellationToken.new, 1, 100, 300, 200, Except.ok ()⟩

def bot_c6 : DiscordBot :=
  ⟨none, CancellationToken.new, 0, 100, 300, 200, Except.ok ()⟩

def bot_c7 : DiscordBot :=
  ⟨none, CancellationToken.new, 0, 100, 300, 200, Except.error "boom"⟩

def bot_c8 : DiscordBot :=
  ⟨none, CancellationToken.new, 0, 100, 300, 200, Except.ok ()⟩

def bot_c10 : DiscordBot :=
  ⟨none, CancellationToken.new, 0, 100, 300, 200, Except.ok ()⟩

/-- Claim C1, code bug: the claim (with the spec) requires the second phase of
shutdown to await the stored Shard Run Task handle to completion, so that no
background shard-driving task remains after shutdown returns.  The code
instead awaits only the futures_locks mutex-acquisition future for the stored
`JoinHandle` and drops the guard without ever polling the `JoinHandle`.  At
the failing input — a supervisor with stored handle 7, as after a
start_shards call — the shutdown trace triggers cancellation and acquires the
handle lock, yet contains no await of any join handle. -/
theorem shutdown_never_polls_join_handle :
    (DiscordBot.shutdown bot_c1).2 =
      DiscordBot.stop_audio bot_c1 ++
        [Event.cancelTriggered, Event.handleLockAcquired 7,
         Event.logWarn "Successfully waited on future"] ∧
    (∀ id, Event.awaitedHandle id ∉ (DiscordBot.shutdown bot_c1).2) := by
  constructor
  · rfl
  · intro id
    simp [DiscordBot.shutdown, DiscordBot.stop_shards, DiscordBot.stop_audio, bot_c1]

/-- Claim C2: in every shutdown trace the audio subsystem shutdown call occurs
strictly before the Cancellation Signal is triggered: the trace splits into a
prefix holding the audio shutdown call and no cancellation, followed by a
suffix holding the cancellation and no audio shutdown call. -/
theorem audio_shutdown_strictly_before_cancel (b : DiscordBot) :
    ∃ A B, (DiscordBot.shutdown b).2 = A ++ B ∧
      Event.audioShutdownCall ∈ A ∧ Event.cancelTriggered ∉ A ∧
      Event.cancelTriggered ∈ B ∧ Event.audioShutdownCall ∉ B := by
  refine ⟨DiscordBot.stop_audio b, (DiscordBot.stop_shards b).2, rfl, ?_, ?_, ?_, ?_⟩
  · cases hres : b.audio_shutdown_result <;> simp [DiscordBot.stop_audio, hres]
  · cases hres : b.audio_shutdown_result <;> simp [DiscordBot.stop_audio, hres]
  · cases hh : b.shard_handle <;> simp [DiscordBot.stop_shards, hh]
  · cases hh : b.shard_handle <;> simp [DiscordBot.stop_shards, hh]

/-- Counterexample to claim C3 as stated: at a concrete supervisor, the trace
of the audio-quiesce phase contains exactly one 500 ms sleep and exactly one
audio lock release, and the sleep occurs at a strictly smaller index than the
release — the grace delay happens while the audio lock is still held, not
after it has been released. -/
theorem grace_delay_counterexample :
    (DiscordBot.stop_audio bot_c3).count (Event.sleep 500) = 1 ∧
    (DiscordBot.stop_audio bot_c3).count Event.audioLockReleased = 1 ∧
    (DiscordBot.stop_audio bot_c3).indexOf (Event.sleep 500) <
      (DiscordBot.stop_audio bot_c3).indexOf Event.audioLockReleased := by
  decide

/-- Claim C3, amended: the 500 ms grace delay occurs while the audio lock is
still held; the lock is released only after the delay, when the audio-quiesce
phase returns, and only then does the shard-stop phase begin. -/
theorem grace_delay_while_audio_lock_held (b : DiscordBot) :
    (∃ A, DiscordBot.stop_audio b =
        A ++ [Event.sleep 500, Event.audioLockReleased] ∧
      Event.audioLockReleased ∉ A ∧ Event.sleep 500 ∉ A) ∧
    (DiscordBot.shutdown b).2 =
      DiscordBot.stop_audio b ++ (DiscordBot.stop_shards b).2 := by
  constructor
  · cases hres : b.audio_shutdown_result with
    | ok u =>
        exact ⟨[Event.audioLockAcquired, Event.audioShutdownCall],
          by simp [DiscordBot.stop_audio, hres], by simp, by simp⟩
    | error x =>
        exact ⟨[Event.audioLockAcquired, Event.audioShutdownCall,
            Event.logError ("Error shutting down player: " ++ x)],
          by simp [DiscordBot.stop_audio, hres], by simp, by simp⟩
  · rfl

/-- Claim C4: with primary channel 100, archive channel 200 and debug channel
300, posting content hello with url http://x yields exactly one send of hello
to channel 100 followed by one send of hello plus the delimited url to channel
200, with no send to channel 300; with the url absent, the unmodified content
is sent to the archive channel. -/
theorem post_message_concrete_scenario (delivery : Nat → String → Bool)
    (b : DiscordBot) (h1 : b.chat_channel = 100) (h2 : b.archive_channel = 200)
    (_h3 : b.test_channel = 300) (hok : ∀ c t, delivery c t = true) :
    DiscordBot.post_message delivery b ⟨"hello", some "http://x"⟩ =
      [Event.logInfo "Trying to send message: hello",
       Event.say 100 "hello", Event.say 200 "hello\n<http://x>"] ∧
    (∀ t, Event.say 300 t ∉
      DiscordBot.post_message delivery b ⟨"hello", some "http://x"⟩) ∧
    (∀ content : String,
      DiscordBot.post_message delivery b ⟨content, none⟩ =
        [Event.logInfo ("Trying to send message: " ++ content),
         Event.say 100 content, Event.say 200 content]) := by
  refine ⟨?_, fun t => ?_, fun content => ?_⟩ <;>
    simp [DiscordBot.post_message, SnifferPost.discord_string,
      SnifferPost.archive_string, h1, h2, hok]

/-- Witness for C4 at a concrete supervisor and an always-succeeding delivery
oracle, with the universally quantified conclusions instantiated. -/
theorem post_message_concrete_scenario_witness :
    (bot_c4.chat_channel = 100 ∧ bot_c4.archive_channel = 200 ∧
      bot_c4.test_channel = 300) ∧
    DiscordBot.post_message (fun _ _ => true) bot_c4 ⟨"hello", some "http://x"⟩ =
      [Event.logInfo "Trying to send message: hello",
       Event.say 100 "hello", Event.say 200 "hello\n<http://x>"] ∧
    Event.say 300 "zzz" ∉
      DiscordBot.post_message (fun _ _ => true) bot_c4 ⟨"hello", some "http://x"⟩ ∧
    DiscordBot.post_message (fun _ _ => true) bot_c4 ⟨"abc", none⟩ =
      [Event.logInfo "Trying to send message: abc",
       Event.say 100 "abc", Event.say 200 "abc"] :=
  ⟨⟨rfl, rfl, rfl⟩,
   (post_message_concrete_scenario _ bot_c4 rfl rfl rfl fun _ _ => rfl).1,
   (post_message_concrete_scenario _ bot_c4 rfl rfl rfl fun _ _ => rfl).2.1 "zzz",
   (post_message_concrete_scenario _ bot_c4 rfl rfl rfl fun _ _ => rfl).2.2 "abc"⟩

/-- Claim C5: calling start_shards while a handle is already stored overwrites
the stored handle with the fresh task identifier, which differs from the old
one, and the emitted trace contains no await of any handle — the prior task is
not waited for. -/
theorem start_shards_overwrites_without_waiting (b : DiscordBot) (n h : Nat)
    (hh : b.shard_handle = some h) (hlt : h < b.next_task_id) :
    (DiscordBot.start_shards b n).1.shard_handle = some b.next_task_id ∧
    (DiscordBot.start_shards b n).1.shard_handle ≠ b.shard_handle ∧
    (∀ id, Event.awaitedHandle id ∉ (DiscordBot.start_shards b n).2) := by
  refine ⟨rfl, ?_, fun id => by simp [DiscordBot.start_shards]⟩
  rw [hh]
  simp only [DiscordBot.start_shards, ne_eq, Option.some.injEq]
  exact Nat.ne_of_gt hlt

/-- Witness for C5 at a concrete supervisor with stored handle 0 and next
task identifier 1. -/
theorem start_shards_overwrites_without_waiting_witness :
    (bot_c5.shard_handle = some 0 ∧ 0 < bot_c5.next_task_id) ∧
    ((DiscordBot.start_shards bot_c5 2).1.shard_handle = some bot_c5.next_task_id ∧
      (DiscordBot.start_shards bot_c5 2).1.shard_handle ≠ bot_c5.shard_handle ∧
      Event.awaitedHandle 5 ∉ (DiscordBot.start_shards bot_c5 2).2) :=
  ⟨⟨rfl, by decide⟩,
   (start_shards_overwrites_without_waiting bot_c5 2 0 rfl (by decide)).1,
   (start_shards_overwrites_without_waiting bot_c5 2 0 rfl (by decide)).2.1,
   (start_shards_overwrites_without_waiting bot_c5 2 0 rfl (by decide)).2.2 5⟩

/-- Claim C6: for each of the three delivery sites (primary send and archive
send in post_message, and the debug send in post_debug_string), a failed
delivery ends the trace with a panic — the failure is propagated as an
unrecoverable error to the calling context, not returned as a typed result
(the operations return no value). -/
theorem delivery_failure_panics (d1 d2 d3 : Nat → String → Bool)
    (b : DiscordBot) (msg : SnifferPost) (s : String)
    (h1 : d1 b.chat_channel msg.discord_string = false)
    (h2 : d2 b.chat_channel msg.discord_string = true)
    (h3 : d2 b.archive_channel msg.archive_string = false)
    (h4 : d3 b.test_channel s = false) :
    DiscordBot.post_message d1 b msg =
      [Event.logInfo ("Trying to send message: " ++ msg.discord_string),
       Event.say b.chat_channel msg.discord_string,
       Event.panicked "Error sending message to main channel"] ∧
    DiscordBot.post_message d2 b msg =
      [Event.logInfo ("Trying to send message: " ++ msg.discord_string),
       Event.say b.chat_channel msg.discord_string,
       Event.say b.archive_channel msg.archive_string,
       Event.panicked "Error sending message to archive"] ∧
    DiscordBot.post_debug_string d3 b s =
      [Event.logWarn "Trying to send debug message",
       Event.say b.test_channel s,
       Event.panicked "Error sending test message"] := by
  refine ⟨?_, ?_, ?_⟩ <;>
    simp [DiscordBot.post_message, DiscordBot.post_debug_string, h1, h2, h3, h4]

/-- Witness for C6 with concrete oracles failing at the primary, archive and
debug sites respectively. -/
theorem delivery_failure_panics_witness :
    DiscordBot.post_message (fun _ _ => false) bot_c6 ⟨"hello", none⟩ =
      [Event.logInfo "Trying to send message: hello",
       Event.say 100 "hello",
       Event.panicked "Error sending message to main channel"] ∧
    DiscordBot.post_message (fun c _ => c == 100) bot_c6 ⟨"hello", none⟩ =
      [Event.logInfo "Trying to send message: hello",
       Event.say 100 "hello", Event.say 200 "hello",
       Event.panicked "Error sending message to archive"] ∧
    DiscordBot.post_debug_string (fun _ _ => false) bot_c6 "dbg" =
      [Event.logWarn "Trying to send debug message",
       Event.say 300 "dbg",
       Event.panicked "Error sending test message"] :=
  delivery_failure_panics (fun _ _ => false) (fun c _ => c == 100)
    (fun _ _ => false) bot_c6 ⟨"hello", none⟩ "dbg" rfl rfl rfl rfl

/-- Claim C7: when the audio subsystem shutdown returns an error, the error is
logged and not escalated: the audio-quiesce trace still runs the 500 ms grace
delay, shutdown still proceeds to the shard-stop phase, cancellation is still
triggered, and no panic occurs anywhere in the shutdown trace. -/
theorem audio_shutdown_error_logged_not_escalated (b : DiscordBot) (x : String)
    (h : b.audio_shutdown_result = Except.error x) :
    DiscordBot.stop_audio b =
      [Event.audioLockAcquired, Event.audioShutdownCall,
       Event.logError ("Error shutting down player: " ++ x),
       Event.sleep 500, Event.audioLockReleased] ∧
    (DiscordBot.shutdown b).2 =
      DiscordBot.stop_audio b ++ (DiscordBot.stop_shards b).2 ∧
    Event.cancelTriggered ∈ (DiscordBot.shutdown b).2 ∧
    (∀ m, Event.panicked m ∉ (DiscordBot.shutdown b).2) := by
  refine ⟨by simp [DiscordBot.stop_audio, h], rfl, ?_, fun m => ?_⟩
  · cases hh : b.shard_handle <;>
      simp [DiscordBot.shutdown, DiscordBot.stop_shards, DiscordBot.stop_audio, h, hh]
  · cases hh : b.shard_handle <;>
      simp [DiscordBot.shutdown, DiscordBot.stop_shards, DiscordBot.stop_audio, h, hh]

/-- Witness for C7 at a concrete supervisor whose audio shutdown fails. -/
theorem audio_shutdown_error_logged_not_escalated_witness :
    bot_c7.audio_shutdown_result = Except.error "boom" ∧
    (DiscordBot.stop_audio bot_c7 =
        [Event.audioLockAcquired, Event.audioShutdownCall,
         Event.logError "Error shutting down player: boom",
         Event.sleep 500, Event.audioLockReleased] ∧
      (DiscordBot.shutdown bot_c7).2 =
        DiscordBot.stop_audio bot_c7 ++ (DiscordBot.stop_shards bot_c7).2 ∧
      Event.cancelTriggered ∈ (DiscordBot.shutdown bot_c7).2 ∧
      Event.panicked "p" ∉ (DiscordBot.shutdown bot_c7).2) :=
  ⟨rfl,
   (audio_shutdown_error_logged_not_escalated bot_c7 "boom" rfl).1,
   (audio_shutdown_error_logged_not_escalated bot_c7 "boom" rfl).2.1,
   (audio_shutdown_error_logged_not_escalated bot_c7 "boom" rfl).2.2.1,
   (audio_shutdown_error_logged_not_escalated bot_c7 "boom" rfl).2.2.2 "p"⟩

/-- Claim C8: calling shutdown on a supervisor with no stored shard handle (no
prior start_shards call) logs the no-shard-handle condition and returns
cleanly: no panic occurs anywhere in the shutdown trace.  In the code the
audio subsystem field is unconditionally present, so the property is proved
for every such supervisor, whatever its audio subsystem does. -/
theorem shutdown_without_handle_clean (b : DiscordBot)
    (h : b.shard_handle = none) :
    Event.logError "We don\x27t have a shard handle" ∈ (DiscordBot.shutdown b).2 ∧
    (∀ m, Event.panicked m ∉ (DiscordBot.shutdown b).2) := by
  constructor
  · cases hres : b.audio_shutdown_result <;>
      simp [DiscordBot.shutdown, DiscordBot.stop_shards, DiscordBot.stop_audio, h, hres]
  · intro m
    cases hres : b.audio_shutdown_result <;>
      simp [DiscordBot.shutdown, DiscordBot.stop_shards, DiscordBot.stop_audio, h, hres]

/-- Witness for C8 at a concrete supervisor with no stored handle. -/
theorem shutdown_without_handle_clean_witness :
    bot_c8.shard_handle = none ∧
    (Event.logError "We don\x27t have a shard handle" ∈
        (DiscordBot.shutdown bot_c8).2 ∧
      Event.panicked "p" ∉ (DiscordBot.shutdown bot_c8).2) :=
  ⟨rfl, (shutdown_without_handle_clean bot_c8 rfl).1,
   (shutdown_without_handle_clean bot_c8 rfl).2 "p"⟩

/-- Triggered state survives any further sequence of token operations. -/
theorem applyTokenOps_preserves_cancelled (ops : List TokenOp)
    (s : CancellationToken) (h : s.cancelled = true) :
    (applyTokenOps ops s).cancelled = true := by
  induction ops generalizing s with
  | nil => exact h
  | cons op rest ih =>
      have hs : (TokenOp.apply op s).cancelled = true := by
        cases op <;> simp [TokenOp.apply, CancellationToken.cancel, h]
      simpa [applyTokenOps] using ih (TokenOp.apply op s) hs

/-- Claim C9: the Cancellation Signal is one-shot and idempotent: triggering
it any number of times at least one is the same as triggering it once, the
result is the triggered state, no further sequence of token operations ever
resets it, and a waiter registering after the trigger is released at once. -/
theorem cancellation_token_one_shot (t : CancellationToken) (n : Nat)
    (ops : List TokenOp) (h : 1 ≤ n) :
    CancellationToken.cancel^[n] t = CancellationToken.cancel t ∧
    (CancellationToken.cancel t).cancelled = true ∧
    (applyTokenOps ops (CancellationToken.cancel t)).cancelled = true ∧
    CancellationToken.wait_returns_immediately (CancellationToken.cancel t) = true := by
  obtain ⟨k, rfl⟩ := Nat.exists_eq_add_of_le h
  refine ⟨?_, rfl, applyTokenOps_preserves_cancelled ops _ rfl, rfl⟩
  rw [Function.iterate_add_apply, Function.iterate_one]
  rfl

/-- Witness for C9: three triggers on a fresh token collapse to one, and the
triggered state survives a wait, a further trigger and a clone. -/
theorem cancellation_token_one_shot_witness :
    (1 : Nat) ≤ 3 ∧
    (CancellationToken.cancel^[3] CancellationToken.new =
        CancellationToken.cancel CancellationToken.new ∧
      (CancellationToken.cancel CancellationToken.new).cancelled = true ∧
      (applyTokenOps [TokenOp.wait, TokenOp.cancel, TokenOp.clone]
          (CancellationToken.cancel CancellationToken.new)).cancelled = true ∧
      CancellationToken.wait_returns_immediately
          (CancellationToken.cancel CancellationToken.new) = true) :=
  ⟨by decide,
   cancellation_token_one_shot CancellationToken.new 3
     [TokenOp.wait, TokenOp.cancel, TokenOp.clone] (by decide)⟩

/-- Claim C10: within one post_message call, the archive-channel delivery is
attempted only after the primary-channel delivery succeeded: if the primary
send fails, the trace contains no send to the archive channel at all, so the
partial outcome archive-delivered-but-primary-failed cannot arise. -/
theorem archive_send_requires_primary_success (delivery : Nat → String → Bool)
    (b : DiscordBot) (msg : SnifferPost)
    (hne : b.archive_channel ≠ b.chat_channel)
    (hfail : delivery b.chat_channel msg.discord_string = false) :
    ∀ t, Event.say b.archive_channel t ∉ DiscordBot.post_message delivery b msg := by
  intro t
  simp [DiscordBot.post_message, hfail, hne]

/-- Witness for C10 at a concrete supervisor and an always-failing oracle. -/
theorem archive_send_requires_primary_success_witness :
    bot_c10.archive_channel ≠ bot_c10.chat_channel ∧
    Event.say 200 "z" ∉
      DiscordBot.post_message (fun _ _ => false) bot_c10 ⟨"hello", some "u"⟩ :=
  ⟨by decide,
   archive_send_requires_primary_success (fun _ _ => false) bot_c10
     ⟨"hello", some "u"⟩ (by decide) rfl "z"⟩

end Sniffer
